import Mathlib

/-!
Verification of the typed HTTP request helper and task-resource client of
the mockfrontend repository, as a shallow embedding in Lean.

The embedding follows src/mock-app/api/http.ts (the `ApiError` class and
the `http` request executor), the `TasksAPI` resource client, and the view
logic of the tasks page (draft construction in `fetchTasks`, the changed
subset computed in `saveTask`, the `resetRow` handler, and the
`filteredTasks` memo).

Platform functions of the JavaScript runtime (JSON.parse, JSON.stringify,
fetch) are not part of the repository: `http` is parametrized over a parse
function `String → Option JsValue` (JSON.parse either yields a value or
throws) and a serialization function `JsValue → String` (JSON.stringify on
the values the code passes), and over a `responder` mapping the issued
request to the network response. String.prototype.includes,
String.prototype.toLowerCase and String.prototype.trim are modelled
concretely on lists of characters.
-/

namespace MockApp

/-- Model of a JavaScript value, as far as the code needs it: the bodies
passed to `http` and the values produced by JSON parsing. Numbers are
modelled as integers (no NaN); the claims under study only use booleans,
strings, null and plain objects. -/
inductive JsValue where
  | null
  | undefined
  | bool (b : Bool)
  | num (n : Int)
  | str (s : String)
  | arr (elems : List JsValue)
  | obj (fields : List (String × JsValue))

/-- JavaScript truthiness on the modelled values: `undefined`, `null`,
`false`, `0` and the empty string are falsy; arrays and objects are always
truthy. -/
def JsValue.truthy : JsValue → Bool
  | .null => false
  | .undefined => false
  | .bool b => b
  | .num n => n != 0
  | .str s => !s.isEmpty
  | .arr _ => true
  | .obj _ => true

/-- The `ApiError` class of src/mock-app/api/http.ts: message, numeric
status and the raw response body text. -/
structure ApiError where
  message : String
  status : Nat
  bodyText : String
deriving DecidableEq

/-- The `HttpMethod` union type of src/mock-app/api/http.ts. -/
inductive HttpMethod where
  | GET
  | POST
  | PATCH
  | PUT
  | DELETE
deriving DecidableEq

/-- The string each method literal denotes. -/
def HttpMethod.toStr : HttpMethod → String
  | .GET => "GET"
  | .POST => "POST"
  | .PATCH => "PATCH"
  | .PUT => "PUT"
  | .DELETE => "DELETE"

/-- The `RequestOptions` type of src/mock-app/api/http.ts. `method`,
`cache` absent means the destructuring default applies; `body` absent
means no body argument was supplied; `headers` is the caller-supplied
header object (empty list when absent, which spreads to nothing). -/
structure RequestOptions where
  method : Option HttpMethod
  body : Option JsValue
  headers : List (String × String)
  cache : Option String

/-- The argument object `http` hands to `fetch`: resolved method and cache
directive, merged headers, and the serialized body (or no body). -/
structure FetchRequest where
  url : String
  method : HttpMethod
  cache : String
  headers : List (String × String)
  body : Option String

/-- JavaScript object-spread of two string-keyed records,
`\x7b...a, ...b\x7d`: keys of `b` override keys of `a`. Modelled as an
association list whose first match is the binding in force. -/
def objSpread (a b : List (String × String)) : List (String × String) :=
  a.filter (fun p => (b.lookup p.fst).isNone) ++ b

/-- Whether the `body` option is present and truthy: this is the test
`body ? ... : ...` that src/mock-app/api/http.ts applies both to the
header default and to the serialization. -/
def bodyTruthy (opts : RequestOptions) : Bool :=
  match opts.body with
  | some v => v.truthy
  | none => false

/-- The request `http` issues, from lines 23-33 of
src/mock-app/api/http.ts: method defaults to GET, cache to no-store, a
JSON content-type header is added exactly when the body is truthy (with
caller headers spread after the default), and the body is serialized
exactly when truthy (else `undefined`). -/
def buildRequest (stringify : JsValue → String) (url : String)
    (opts : RequestOptions) : FetchRequest :=
  { url := url
    method := opts.method.getD HttpMethod.GET
    cache := opts.cache.getD ("no-store")
    headers :=
      objSpread
        (if bodyTruthy opts then [(("Content-Type"), ("application/json"))] else [])
        opts.headers
    body :=
      match opts.body with
      | some v => if v.truthy then some (stringify v) else none
      | none => none }

/-- The response as `http` observes it: numeric status and the full body
text (read unconditionally). -/
structure Response where
  status : Nat
  text : String

/-- The `ok` flag of a fetch Response: status in the 200-299 range. -/
def Response.isOk (r : Response) : Bool :=
  decide (200 ≤ r.status) && decide (r.status ≤ 299)

/-- What a call to `http` produces: either a raised `ApiError` or a
returned value, where `HttpOutcome.ok none` is the `undefined` result of
an empty body. A JSON parse failure yields the raw text as a string
value. -/
inductive HttpOutcome where
  | error (e : ApiError)
  | ok (v : Option JsValue)

/-- The error message built at line 41 of src/mock-app/api/http.ts:
the template string `HTTP $\x7bres.status\x7d for $\x7bmethod\x7d $\x7burl\x7d`. -/
def errorMessage (m : HttpMethod) (url : String) (status : Nat) : String :=
  "HTTP " ++ toString status ++ " for " ++ m.toStr ++ " " ++ url

/-- Lines 40-53 of src/mock-app/api/http.ts: non-ok status raises an
`ApiError` carrying the message, status and raw text; ok with empty text
returns `undefined`; otherwise JSON.parse, falling back to the raw text
when parsing throws. -/
def handleResponse (parse : String → Option JsValue) (m : HttpMethod)
    (url : String) (res : Response) : HttpOutcome :=
  if res.isOk = false then
    .error ⟨errorMessage m url res.status, res.status, res.text⟩
  else if res.text = "" then
    .ok none
  else
    match parse res.text with
    | some v => .ok (some v)
    | none => .ok (some (.str res.text))

/-- The `http` request executor of src/mock-app/api/http.ts: build the
fetch request from the options, obtain the response, and decode it.
`responder` stands for the network. -/
def http (parse : String → Option JsValue) (stringify : JsValue → String)
    (url : String) (opts : RequestOptions)
    (responder : FetchRequest → Response) : HttpOutcome :=
  let req := buildRequest stringify url opts
  let res := responder req
  handleResponse parse req.method req.url res

/-- The `Task` type shared by the API client and the page. -/
structure Task where
  id : String
  title : String
  priority : String
  status : String
deriving DecidableEq

/-- The fixed base path `BASE` the resource client is bound to. -/
def BASE : String := "http://localhost:3001/tasks"

/-- The `RequestOptions` value of a call that passes no options. -/
def noOpts : RequestOptions :=
  { method := none, body := none, headers := [], cache := none }

/-- The body object `TasksAPI.create` passes: exactly the three fields
title, priority, status. -/
def createPayload (title priority status : String) : JsValue :=
  .obj [(("title"), .str title), (("priority"), .str priority),
        (("status"), .str status)]

/-- The body object `TasksAPI.update` passes: a partial record holding
only the fields that are present. -/
def updatePayload (priority status : Option String) : JsValue :=
  .obj
    ((match priority with
      | some p => [(("priority"), JsValue.str p)]
      | none => []) ++
     (match status with
      | some s => [(("status"), JsValue.str s)]
      | none => []))

namespace TasksAPI

/-- `TasksAPI.list`: `http(BASE)` with no options. -/
def list : String × RequestOptions := (BASE, noOpts)

/-- `TasksAPI.create`: POST to `BASE` with the payload as body. -/
def create (title priority status : String) : String × RequestOptions :=
  (BASE, { noOpts with method := some .POST,
                       body := some (createPayload title priority status) })

/-- `TasksAPI.update`: PATCH to `BASE/id` with the partial updates as
body. -/
def update (id : String) (priority status : Option String) :
    String × RequestOptions :=
  (BASE ++ "/" ++ id, { noOpts with method := some .PATCH,
                                    body := some (updatePayload priority status) })

/-- `TasksAPI.remove`: DELETE to `BASE/id` with no body. -/
def remove (id : String) : String × RequestOptions :=
  (BASE ++ "/" ++ id, { noOpts with method := some .DELETE })

end TasksAPI

/-- A draft entry held by the page: the locally edited priority and
status of one task (`Pick<Task, priority | status>`). -/
structure Draft where
  priority : String
  status : String
deriving DecidableEq

/-- The `drafts` record of the page, a JavaScript object keyed by task
id, modelled extensionally as a partial map. -/
def Drafts : Type := String → Option Draft

/-- The drafts the page builds after a successful fetch: an empty record
filled by `data.forEach(t => d[t.id] = \x7bpriority, status\x7d)`; a later
assignment to the same key overrides an earlier one. -/
def fetchTasksDrafts (data : List Task) : Drafts :=
  data.foldl
    (fun d t => fun k =>
      if k = t.id then some ⟨t.priority, t.status⟩ else d k)
    (fun _ => none)

/-- The `resetRow` handler: if a task with the given id is in `tasks`,
set that id's draft back to the task's server values; otherwise leave the
record unchanged. -/
def resetRowDrafts (tasks : List Task) (drafts : Drafts) (id : String) :
    Drafts :=
  match tasks.find? (fun t => t.id == id) with
  | none => drafts
  | some current =>
      fun k => if k = id then some ⟨current.priority, current.status⟩
               else drafts k

/-- The partial update `saveTask` computes: a field is included exactly
when the draft value differs from the current server value. -/
def saveTaskUpdates (current : Task) (draft : Draft) :
    Option String × Option String :=
  ((if draft.priority ≠ current.priority then some draft.priority else none),
   (if draft.status ≠ current.status then some draft.status else none))

/-- Model of String.prototype.startsWith on character lists. -/
def charsStartsWith : List Char → List Char → Bool
  | _, [] => true
  | [], _ :: _ => false
  | a :: as, b :: bs => (a = b) && charsStartsWith as bs

/-- Model of substring containment on character lists: the pattern occurs
starting at some position. -/
def charsContains : List Char → List Char → Bool
  | [], pat => pat.isEmpty
  | a :: as, pat => charsStartsWith (a :: as) pat || charsContains as pat

/-- Model of String.prototype.includes. -/
def strIncludes (s pat : String) : Bool :=
  charsContains s.toList pat.toList

/-- Model of String.prototype.toLowerCase (character-wise lowering). -/
def jsToLower (s : String) : String :=
  String.mk (s.toList.map Char.toLower)

/-- Model of String.prototype.trim: drop whitespace from both ends. -/
def jsTrim (s : String) : String :=
  String.mk
    (((s.toList.dropWhile Char.isWhitespace).reverse.dropWhile
        Char.isWhitespace).reverse)

/-- The `filteredTasks` memo of the tasks page: lower the trimmed query,
then keep the tasks whose title contains it (every title when the query
is empty, by string truthiness) and whose priority and status match the
respective filter, where the filter value All matches everything. -/
def filteredTasks (tasks : List Task) (q priorityFilter statusFilter : String) :
    List Task :=
  let query := jsToLower (jsTrim q)
  tasks.filter fun t =>
    (if query = "" then true else strIncludes (jsToLower t.title) query)
    && (if priorityFilter = "All" then true else t.priority == priorityFilter)
    && (if statusFilter = "All" then true else t.status == statusFilter)

/-- Stated from the claim's words, to be compared with `filteredTasks`: a
task matches when its title contains the trimmed lowercased query (every
title matches when the trimmed query is empty) and its priority and
status equal the respective filter unless that filter is All. -/
def claimMatches (q priorityFilter statusFilter : String) (t : Task) : Bool :=
  (jsTrim q = "" || strIncludes (jsToLower t.title) (jsToLower (jsTrim q)))
  && (priorityFilter = "All" || t.priority == priorityFilter)
  && (statusFilter = "All" || t.status == statusFilter)

/-! Concrete fixtures used by the witness theorems: a parse function with
the JSON.parse behaviour on the few strings the witnesses exercise, a
serialization function, and responders standing for fixed server
replies. -/

/-- A parse fixture: accepts an empty JSON array, rejects everything
else (in particular the bare text ok, which JSON.parse rejects). -/
def parseFix : String → Option JsValue :=
  fun s => if s = "[]" then some (.arr []) else none

/-- A serialization fixture. -/
def stringifyFix : JsValue → String :=
  fun _ => "serialized"

/-- A responder that always fails with status 404 and body text nope. -/
def respond404 : FetchRequest → Response :=
  fun _ => ⟨404, "nope"⟩

/-- A responder that succeeds with status 200 and an empty-array body. -/
def respond200arr : FetchRequest → Response :=
  fun _ => ⟨200, "[]"⟩

/-- A responder that succeeds with status 200 and the bare text ok. -/
def respond200ok : FetchRequest → Response :=
  fun _ => ⟨200, "ok"⟩

/-- A responder that succeeds with status 204 and an empty body. -/
def respond204 : FetchRequest → Response :=
  fun _ => ⟨204, ""⟩

end MockApp

namespace MockApp

/-- The request `http` builds carries the resolved method
`opts.method.getD GET` and the original url. -/
theorem buildRequest_method_url (stringify : JsValue → String) (url : String)
    (opts : RequestOptions) :
    (buildRequest stringify url opts).method = opts.method.getD HttpMethod.GET
    ∧ (buildRequest stringify url opts).url = url := ⟨rfl, rfl⟩

/-- Claim C1: for every response with a non-success status, `http` raises
an `ApiError` whose status equals the response status, whose bodyText
equals the exact response body text, and whose message is the template
embedding the method, URL and status code; and this is the only path on
which `http` raises the error: on a success status no `ApiError` is ever
produced. -/
theorem http_nonsuccess_raises (parse : String → Option JsValue)
    (stringify : JsValue → String) (url : String) (opts : RequestOptions)
    (responder : FetchRequest → Response) (res : Response)
    (hres : responder (buildRequest stringify url opts) = res) :
    (res.isOk = false →
      http parse stringify url opts responder =
        .error ⟨errorMessage (opts.method.getD HttpMethod.GET) url res.status,
                res.status, res.text⟩)
    ∧ (res.isOk = true →
        ∀ e : ApiError, http parse stringify url opts responder ≠ .error e) := by
  constructor
  · intro hbad
    simp only [http, hres, handleResponse, hbad, if_pos]
    rfl
  · intro hok e
    simp only [http, hres, handleResponse, hok]
    simp only [Bool.true_eq_false, if_false]
    split
    · intro h; cases h
    · split
      · intro h; cases h
      · intro h; cases h

/-- Witness for C1: a 404 response with body text nope to a GET of url u
yields exactly the structured error. -/
theorem http_nonsuccess_raises_witness :
    http parseFix stringifyFix ("u") noOpts respond404 =
      .error ⟨("HTTP 404 for GET u"), 404, ("nope")⟩ :=
  (http_nonsuccess_raises parseFix stringifyFix ("u") noOpts respond404
    ⟨404, ("nope")⟩ rfl).1 (by decide)

/-- Claim C2: for every response with a success status and a non-empty
body text that parses as JSON, `http` returns exactly the parsed value. -/
theorem http_success_json (parse : String → Option JsValue)
    (stringify : JsValue → String) (url : String) (opts : RequestOptions)
    (responder : FetchRequest → Response) (res : Response) (v : JsValue)
    (hres : responder (buildRequest stringify url opts) = res)
    (hok : res.isOk = true) (hne : res.text ≠ "")
    (hp : parse res.text = some v) :
    http parse stringify url opts responder = .ok (some v) := by
  simp only [http, hres, handleResponse, hok]
  simp only [Bool.true_eq_false, if_false]
  rw [if_neg hne, hp]

/-- Witness for C2: a 200 response with the JSON body an empty array
decodes to the parsed empty array. -/
theorem http_success_json_witness :
    http parseFix stringifyFix ("u") noOpts respond200arr =
      .ok (some (.arr [])) :=
  http_success_json parseFix stringifyFix ("u") noOpts respond200arr
    ⟨200, ("[]")⟩ (.arr []) rfl (by decide) (by decide) rfl

/-- Claim C3: for every response with a success status and a non-empty
body text that does not parse as JSON, `http` returns the raw body text
itself as a string value and raises no error. -/
theorem http_success_text_fallback (parse : String → Option JsValue)
    (stringify : JsValue → String) (url : String) (opts : RequestOptions)
    (responder : FetchRequest → Response) (res : Response)
    (hres : responder (buildRequest stringify url opts) = res)
    (hok : res.isOk = true) (hne : res.text ≠ "")
    (hp : parse res.text = none) :
    http parse stringify url opts responder = .ok (some (.str res.text)) := by
  simp only [http, hres, handleResponse, hok]
  simp only [Bool.true_eq_false, if_false]
  rw [if_neg hne, hp]

/-- Witness for C3: a 200 response whose body is the bare unquoted text
ok is returned as the string ok. -/
theorem http_success_text_fallback_witness :
    http parseFix stringifyFix ("u") noOpts respond200ok =
      .ok (some (.str ("ok"))) :=
  http_success_text_fallback parseFix stringifyFix ("u") noOpts respond200ok
    ⟨200, ("ok")⟩ rfl (by decide) (by decide) rfl

/-- Claim C4: for every response with a success status and an empty body
text, `http` returns the absent (undefined) result and no error. -/
theorem http_success_empty (parse : String → Option JsValue)
    (stringify : JsValue → String) (url : String) (opts : RequestOptions)
    (responder : FetchRequest → Response) (res : Response)
    (hres : responder (buildRequest stringify url opts) = res)
    (hok : res.isOk = true) (hempty : res.text = "") :
    http parse stringify url opts responder = .ok none := by
  simp only [http, hres, handleResponse, hok]
  simp only [Bool.true_eq_false, if_false]
  rw [if_pos hempty]

/-- Witness for C4: a 204 response with an empty body yields the absent
result. -/
theorem http_success_empty_witness :
    http parseFix stringifyFix ("u") noOpts respond204 = .ok none :=
  http_success_empty parseFix stringifyFix ("u") noOpts respond204
    ⟨204, ""⟩ rfl (by decide) (by decide)

/-- Looking up the overridden key in an object spread of a one-entry
default record with a caller record: the caller's first binding wins when
present, the default value otherwise. -/
theorem lookup_objSpread_single (b : List (String × String)) (k v : String) :
    (objSpread [(k, v)] b).lookup k = some ((b.lookup k).getD v) := by
  unfold objSpread
  cases hb : b.lookup k with
  | some w =>
      simp [List.filter_cons, hb]
  | none =>
      simp [List.filter_cons, hb, List.lookup]

/-- Counterexample to claim C5 as stated: passing the body value `false`
(a falsy value) yields an issued request that carries no body at all —
not the JSON serialization of `false` — and no content-type header. -/
theorem http_body_false_counterexample :
    (buildRequest stringifyFix ("u")
        ⟨none, some (JsValue.bool false), [], none⟩).body = none
    ∧ (buildRequest stringifyFix ("u")
        ⟨none, some (JsValue.bool false), [], none⟩).headers = [] :=
  ⟨rfl, rfl⟩

/-- Claim C5 (amended): for every call to `http` in which a truthy body
value is passed, the issued request's body is the JSON serialization of
that value and its content-type header is application/json, unless the
caller-supplied headers contain a conflicting content-type entry, in
which case the caller's value wins. -/
theorem http_truthy_body_serialized (stringify : JsValue → String)
    (url : String) (opts : RequestOptions) (v : JsValue)
    (hb : opts.body = some v) (ht : v.truthy = true) :
    (buildRequest stringify url opts).body = some (stringify v)
    ∧ (buildRequest stringify url opts).headers.lookup (("Content-Type")) =
        some ((opts.headers.lookup (("Content-Type"))).getD
          ("application/json")) := by
  have hbt : bodyTruthy opts = true := by simp [bodyTruthy, hb, ht]
  constructor
  · simp [buildRequest, hb, ht]
  · simp only [buildRequest, hbt, if_true]
    exact lookup_objSpread_single _ _ _

/-- Witness for the amended C5: a truthy string body with a caller
content-type override is serialized, and the caller's content-type
wins. -/
theorem http_truthy_body_serialized_witness :
    (buildRequest stringifyFix ("u")
        ⟨none, some (.str ("x")), [(("Content-Type"), ("text/plain"))], none⟩).body =
      some ("serialized")
    ∧ (buildRequest stringifyFix ("u")
        ⟨none, some (.str ("x")), [(("Content-Type"), ("text/plain"))], none⟩).headers.lookup
        (("Content-Type")) = some (("text/plain")) :=
  http_truthy_body_serialized stringifyFix ("u")
    ⟨none, some (.str ("x")), [(("Content-Type"), ("text/plain"))], none⟩
    (.str ("x")) rfl (by decide)

/-- Claim C7: when no method is supplied the exchange is issued with GET,
and when no caching directive is supplied it is issued with no-store. -/
theorem http_defaults (stringify : JsValue → String) (url : String)
    (opts : RequestOptions) :
    (opts.method = none →
      (buildRequest stringify url opts).method = HttpMethod.GET)
    ∧ (opts.cache = none →
        (buildRequest stringify url opts).cache = ("no-store")) := by
  constructor
  · intro h
    simp [buildRequest, h]
  · intro h
    simp [buildRequest, h]

/-- Witness for C7: a call with no options resolves to a GET with the
no-store directive. -/
theorem http_defaults_witness :
    (buildRequest stringifyFix ("u") noOpts).method = HttpMethod.GET
    ∧ (buildRequest stringifyFix ("u") noOpts).cache = ("no-store") :=
  ⟨(http_defaults stringifyFix ("u") noOpts).1 rfl,
   (http_defaults stringifyFix ("u") noOpts).2 rfl⟩

/-- Claim C9: for every call to `http` in which the supplied body value is
falsy, the issued request carries no body and no JSON content-type header
is added — the request headers are exactly the caller's. -/
theorem http_falsy_body_dropped (stringify : JsValue → String)
    (url : String) (opts : RequestOptions) (v : JsValue)
    (hb : opts.body = some v) (hf : v.truthy = false) :
    (buildRequest stringify url opts).body = none
    ∧ (buildRequest stringify url opts).headers = opts.headers := by
  have hbt : bodyTruthy opts = false := by simp [bodyTruthy, hb, hf]
  constructor
  · simp [buildRequest, hb, hf]
  · simp [buildRequest, hbt, objSpread]

/-- Witness for C9: passing the empty string as the body yields a request
with no body and untouched caller headers. -/
theorem http_falsy_body_dropped_witness :
    (buildRequest stringifyFix ("u")
        ⟨none, some (.str ""), [(("X-Extra"), ("y"))], none⟩).body = none
    ∧ (buildRequest stringifyFix ("u")
        ⟨none, some (.str ""), [(("X-Extra"), ("y"))], none⟩).headers =
      [(("X-Extra"), ("y"))] :=
  http_falsy_body_dropped stringifyFix ("u")
    ⟨none, some (.str ""), [(("X-Extra"), ("y"))], none⟩
    (.str "") rfl (by decide)

/-- Claim C6: each resource-client operation is a direct pass-through to
the request executor with a fixed method and path: `list` issues a GET
against the base path with no body; `create` a POST against the base path
whose body is exactly the object with the three fields title, priority,
status; `update` a PATCH against base/id whose body is the partial
updates object; `remove` a DELETE against base/id with no body; and the
updates object `saveTask` passes contains exactly the changed subset of
priority and status, carrying the draft values. No other transformation
is applied. -/
theorem tasksAPI_passthrough (stringify : JsValue → String)
    (title priority status id : String) (pr st : Option String)
    (current : Task) (draft : Draft) :
    buildRequest stringify TasksAPI.list.fst TasksAPI.list.snd =
      { url := BASE, method := .GET, cache := ("no-store"),
        headers := [], body := none }
    ∧ buildRequest stringify (TasksAPI.create title priority status).fst
        (TasksAPI.create title priority status).snd =
      { url := BASE, method := .POST, cache := ("no-store"),
        headers := [(("Content-Type"), ("application/json"))],
        body := some (stringify (createPayload title priority status)) }
    ∧ buildRequest stringify (TasksAPI.update id pr st).fst
        (TasksAPI.update id pr st).snd =
      { url := BASE ++ "/" ++ id, method := .PATCH, cache := ("no-store"),
        headers := [(("Content-Type"), ("application/json"))],
        body := some (stringify (updatePayload pr st)) }
    ∧ buildRequest stringify (TasksAPI.remove id).fst
        (TasksAPI.remove id).snd =
      { url := BASE ++ "/" ++ id, method := .DELETE, cache := ("no-store"),
        headers := [], body := none }
    ∧ updatePayload (saveTaskUpdates current draft).fst
        (saveTaskUpdates current draft).snd =
      .obj ((if draft.priority ≠ current.priority then
              [(("priority"), JsValue.str draft.priority)] else []) ++
            (if draft.status ≠ current.status then
              [(("status"), JsValue.str draft.status)] else [])) := by
  refine ⟨rfl, rfl, rfl, rfl, ?_⟩
  unfold saveTaskUpdates updatePayload
  by_cases hp : draft.priority ≠ current.priority
  · by_cases hs : draft.status ≠ current.status
    · simp [hp, hs]
    · simp [hp, hs]
  · by_cases hs : draft.status ≠ current.status
    · simp [hp, hs]
    · simp [hp, hs]

/-- The draft fold of `fetchTasks` leaves keys that are not the id of any
remaining task untouched. -/
theorem fetchDrafts_foldl_not_mem (data : List Task) (acc : Drafts)
    (k : String) (hk : k ∉ data.map Task.id) :
    (data.foldl
      (fun d t => fun k' =>
        if k' = t.id then some ⟨t.priority, t.status⟩ else d k')
      acc) k = acc k := by
  induction data generalizing acc with
  | nil => rfl
  | cons t rest ih =>
      simp only [List.map_cons, List.mem_cons, not_or] at hk
      rw [List.foldl_cons, ih _ hk.2]
      simp [hk.1]

/-- The draft fold of `fetchTasks` maps each task id of a duplicate-free
list to that task's priority and status. -/
theorem fetchDrafts_foldl_mem (data : List Task) (acc : Drafts)
    (hn : (data.map Task.id).Nodup) (t : Task) (ht : t ∈ data) :
    (data.foldl
      (fun d t => fun k' =>
        if k' = t.id then some ⟨t.priority, t.status⟩ else d k')
      acc) t.id = some ⟨t.priority, t.status⟩ := by
  induction data generalizing acc with
  | nil => cases ht
  | cons u rest ih =>
      simp only [List.map_cons, List.nodup_cons] at hn
      rw [List.foldl_cons]
      rcases List.mem_cons.mp ht with rfl | hmem
      · rw [fetchDrafts_foldl_not_mem rest _ _ hn.1]
        simp
      · exact ih _ hn.2 hmem

/-- Claim C8: after a successful fetch, the draft state mirrors the
server state: for every task of the fetched list (whose server-assigned
ids are pairwise distinct), the draft at that task's id holds exactly the
task's priority and status; and the mirror persists until a draft is
edited — `resetRow`, the only other handler that rewrites a draft between
fetches, preserves it. -/
theorem fetchTasks_draft_mirror (data : List Task)
    (hn : (data.map Task.id).Nodup) :
    (∀ t ∈ data, fetchTasksDrafts data t.id = some ⟨t.priority, t.status⟩)
    ∧ (∀ (drafts : Drafts) (id : String),
        (∀ t ∈ data, drafts t.id = some ⟨t.priority, t.status⟩) →
        ∀ t ∈ data,
          resetRowDrafts data drafts id t.id =
            some ⟨t.priority, t.status⟩) := by
  constructor
  · intro t ht
    exact fetchDrafts_foldl_mem data _ hn t ht
  · intro drafts id hmirror t ht
    unfold resetRowDrafts
    cases hfind : data.find? (fun u => u.id == id) with
    | none => exact hmirror t ht
    | some current =>
        have hcid : current.id = id := by
          simpa using List.find?_some hfind
        have hcmem : current ∈ data := List.mem_of_find?_eq_some hfind
        by_cases hk : t.id = id
        · have : current = t :=
            List.inj_on_of_nodup_map hn hcmem ht (hcid.trans hk.symm)
          simp [hk, this]
        · simp [hk]
          exact hmirror t ht

/-- Witness for C8: on a concrete two-task list the drafts mirror the
fetched priorities and statuses. -/
theorem fetchTasks_draft_mirror_witness :
    fetchTasksDrafts
        [⟨("1"), ("a"), ("Low"), ("open")⟩,
         ⟨("2"), ("b"), ("High"), ("Resolved")⟩] ("2") =
      some ⟨("High"), ("Resolved")⟩ :=
  (fetchTasks_draft_mirror
      [⟨("1"), ("a"), ("Low"), ("open")⟩,
       ⟨("2"), ("b"), ("High"), ("Resolved")⟩]
      (by decide)).1
    ⟨("2"), ("b"), ("High"), ("Resolved")⟩ (by decide)

/-- Character-wise lowering yields the empty string exactly on the empty
string. -/
theorem jsToLower_eq_empty_iff (s : String) : jsToLower s = "" ↔ s = "" := by
  unfold jsToLower
  constructor
  · intro h
    have hd : s.toList.map Char.toLower = [] := by
      have hdata := congrArg String.data h
      simpa using hdata
    have hnil : s.toList = [] := List.map_eq_nil_iff.mp hd
    exact String.ext hnil
  · intro h
    rw [h]
    rfl

/-- Claim C10: `filteredTasks` is exactly the filter of the task list by
the predicate of the claim — title contains the trimmed lowercased query
(every title when the trimmed query is empty), priority and status equal
the respective filter unless it is All; it is a subsequence of the task
list, so server order is preserved; and with an all-whitespace query and
both filters set to All it equals the task list. -/
theorem filteredTasks_spec (tasks : List Task) (q pf sf : String) :
    filteredTasks tasks q pf sf = tasks.filter (claimMatches q pf sf)
    ∧ (filteredTasks tasks q pf sf).Sublist tasks
    ∧ (jsTrim q = "" → pf = "All" → sf = "All" →
        filteredTasks tasks q pf sf = tasks) := by
  refine ⟨?_, List.filter_sublist _, ?_⟩
  · unfold filteredTasks claimMatches
    apply List.filter_congr
    intro t _
    have h0 : jsToLower ("") = "" := rfl
    by_cases hq : jsTrim q = ""
    · have hq' : jsToLower (jsTrim q) = "" := by rw [hq]; rfl
      by_cases hp : pf = "All" <;> by_cases hs : sf = "All" <;>
        simp [hq, hq', h0, hp, hs]
    · have hq' : jsToLower (jsTrim q) ≠ "" :=
        fun h => hq ((jsToLower_eq_empty_iff _).mp h)
      by_cases hp : pf = "All" <;> by_cases hs : sf = "All" <;>
        simp [hq, hq', h0, hp, hs]
  · intro h1 h2 h3
    unfold filteredTasks
    have hq' : jsToLower (jsTrim q) = "" := by rw [h1]; rfl
    simp [hq', h2, h3]

/-- Witness for C10: on a concrete two-task list, an all-whitespace query
with both filters set to All returns the full list. -/
theorem filteredTasks_spec_witness :
    filteredTasks
        [⟨("1"), ("a"), ("Low"), ("open")⟩,
         ⟨("2"), ("b"), ("High"), ("Resolved")⟩]
        ("  ") ("All") ("All") =
      [⟨("1"), ("a"), ("Low"), ("open")⟩,
       ⟨("2"), ("b"), ("High"), ("Resolved")⟩] :=
  (filteredTasks_spec
      [⟨("1"), ("a"), ("Low"), ("open")⟩,
       ⟨("2"), ("b"), ("High"), ("Resolved")⟩]
      ("  ") ("All") ("All")).2.2 (by decide) rfl rfl

end MockApp
